import Mathlib

/-!
Verification development for the POC-SUMMARIZER-FE browser client.

The repository has two stateful components:

* `ConversationPage` (src/src/pages/index.tsx): a chat transcript.  Its
  `sendMessage` operation validates the input, appends a user message and a
  pending ("isLoading") assistant placeholder, issues `POST /chat`, and then
  replaces the placeholder (`prev.slice(0, -1).concat([...])`) with either the
  backend answer (`data.response || fallback`) or a fixed connection-error
  diagnostic message.

* `SummaryPage` (src/src/pages/_document.tsx): a ticket-summary lookup.  Its
  `fetchSummary` operation validates the identifier, issues
  `GET /summarize/:identifier`, stores the parsed JSON payload verbatim as the
  result, and on `data.success` prepends the trimmed identifier to the
  recent-search log (`saveRecentSearch`); any thrown failure (network error or
  non-JSON body) stores a synthesized connection-failure record instead.

The embedding below is a direct translation of that TypeScript into pure Lean
functions: the asynchronous fetch is modelled by an explicit outcome argument
describing what the network layer returned, timestamps (`Date.now()`,
`new Date()`) by an explicit `now` argument, and React state by explicit state
records.  JavaScript truthiness on strings (`!s`, `s || d`) is modelled
explicitly by comparison with the empty string.
-/

namespace PocSummarizer

/-- JavaScript `String.prototype.trim`: remove leading and trailing
whitespace.  (Lean's own `String.trim` is extensionally the same on the
inputs considered here but does not reduce in the kernel, so we embed the
operation on the underlying character list.) -/
def jsTrim (s : String) : String :=
  String.mk (((s.data.dropWhile Char.isWhitespace).reverse.dropWhile Char.isWhitespace).reverse)

/-- Message sender: the `sender: 'user' | 'ai'` field of the `Message`
interface in index.tsx. -/
inductive Sender where
  | user
  | ai
deriving DecidableEq, Repr

/-- The `Message` interface of index.tsx.  `isLoading?: boolean` is an
optional field that is only ever set to `true` on the placeholder; an absent
field is falsy in JavaScript, so we embed it as a `Bool` defaulting to
`false`. -/
structure Message where
  id : String
  content : String
  sender : Sender
  timestamp : Nat
  isLoading : Bool := false
deriving DecidableEq, Repr

/-- The React state of `ConversationPage`: `messages`, `inputValue`,
`isLoading`. -/
structure ChatState where
  messages : List Message
  inputValue : String
  isLoading : Bool
deriving DecidableEq, Repr

/-- Outcome of the `fetch` + `response.json()` sequence inside `sendMessage`.
`ok r` is a 2xx response whose body parsed as JSON, with `r` the value of the
optional `response` field; `httpError` is a resolved fetch with
`response.ok = false` (line 95 throws); `jsonError` is a 2xx response whose
body failed to parse; `networkError` is a rejected fetch. -/
inductive ChatOutcome where
  | ok (response : Option String)
  | httpError
  | jsonError
  | networkError
deriving DecidableEq, Repr

/-- The static welcome text seeded into an empty transcript by the mount
effect of index.tsx (lines 32-59). -/
def welcomeText : String :=
  "🧠 **Welcome to Ticket AI!**\n\nI\x27m your intelligent ticket database assistant. I can help you with:\n\n🔍 **Smart Queries**\n• \"list all ticket IDs\" - Get every ticket identifier\n• \"find tickets from john@email.com\" - Search by customer\n• \"show open tickets\" - Filter by status\n\n📊 **Database Insights**\n• \"explain how my data structure works\" - Complete overview\n• \"what is a ticketID\" - Field explanations\n\n🔄 **Conversation Memory**\n• \"see more\" - Continue from previous results\n• I remember our conversation context!\n\nJust ask me anything naturally. What would you like to explore?"

/-- The welcome `Message` (id `'1'`, sender `'ai'`). -/
def welcomeMessage (now : Nat) : Message :=
  { id := "1", content := welcomeText, sender := Sender.ai, timestamp := now }

/-- The mount effect of index.tsx: if the transcript is empty, seed it with
the single welcome message; otherwise do nothing. -/
def initWelcome (st : ChatState) (now : Nat) : ChatState :=
  if st.messages.length = 0 then { st with messages := [welcomeMessage now] } else st

/-- The user `Message` built by `sendMessage` (id `Date.now().toString()`,
content the trimmed input). -/
def userMessage (now : Nat) (text : String) : Message :=
  { id := toString now, content := text, sender := Sender.user, timestamp := now }

/-- The pending placeholder `Message` built by `sendMessage`
(id `(Date.now() + 1).toString()`, empty content, `isLoading: true`). -/
def loadingMessage (now : Nat) : Message :=
  { id := toString (now + 1), content := "", sender := Sender.ai, timestamp := now,
    isLoading := true }

/-- The resolved assistant `Message` built by `sendMessage`
(id `(Date.now() + 2).toString()`), used for both the answer and the error
diagnostic, with the respective content. -/
def aiMessage (now : Nat) (content : String) : Message :=
  { id := toString (now + 2), content := content, sender := Sender.ai, timestamp := now }

/-- The fallback text of line 103 of index.tsx, used when `data.response` is
falsy. -/
def processingIssueText : String :=
  "Sorry, I encountered an issue processing your request."

/-- The fixed connection-error diagnostic content of line 114 of index.tsx. -/
def connectionErrorText : String :=
  "❌ **Connection Error**\n\nI couldn\x27t connect to the Super AI backend. Please make sure:\n\n• The backend server is running on `localhost:3002`\n• Run `npm run dev` in your backend directory\n• Check the console for any errors\n\nTry your message again once the backend is ready!"

/-- Line 103 of index.tsx: `data.response || 'Sorry, ...'`.  A missing field
and an empty string are both falsy in JavaScript, so both fall back. -/
def resolvedContent (response : Option String) : String :=
  match response with
  | some s => if s = "" then processingIssueText else s
  | none => processingIssueText

/-- First phase of `sendMessage` (lines 61-81 of index.tsx), up to the
suspension point at the `fetch`: the guard
`if (!inputValue.trim() || isLoading) return`, then appending the user
message and the pending placeholder, clearing the input and setting the busy
flag. -/
def sendMessageStart (st : ChatState) (now : Nat) : ChatState :=
  if jsTrim st.inputValue = "" ∨ st.isLoading = true then st
  else
    { messages := st.messages ++ [userMessage now (jsTrim st.inputValue), loadingMessage now],
      inputValue := "",
      isLoading := true }

/-- Second phase of `sendMessage` (lines 83-122 of index.tsx), resuming after
the fetch resolved or rejected: both the success path (line 108) and the
catch path (line 119) run `prev.slice(0, -1).concat([msg])`, dropping the
placeholder and appending the resolved message, and the `finally` block
clears the busy flag. -/
def sendMessageFinish (st : ChatState) (now : Nat) (outcome : ChatOutcome) : ChatState :=
  match outcome with
  | ChatOutcome.ok r =>
      { st with
        messages := st.messages.dropLast ++ [aiMessage now (resolvedContent r)],
        isLoading := false }
  | _ =>
      { st with
        messages := st.messages.dropLast ++ [aiMessage now connectionErrorText],
        isLoading := false }

/-- One complete `sendMessage` call: the guard, then the two phases in
sequence with the given network outcome. -/
def sendMessage (st : ChatState) (now : Nat) (outcome : ChatOutcome) : ChatState :=
  if jsTrim st.inputValue = "" ∨ st.isLoading = true then st
  else sendMessageFinish (sendMessageStart st now) now outcome

/-- Number of pending (placeholder) turns in a transcript. -/
def pendingCount (ms : List Message) : Nat :=
  (ms.filter (fun m => m.isLoading)).length

/-- States of `ConversationPage` reachable from a fresh mount: the empty
transcript, typing into the input box, the mount effect, and the two phases
of `sendMessage`.  The finish phase only ever runs while a request is in
flight (`isLoading = true`), since it is the continuation of a started
call. -/
inductive ChatReachable : ChatState → Prop where
  | empty (input : String) :
      ChatReachable { messages := [], inputValue := input, isLoading := false }
  | typing (st : ChatState) (input : String) :
      ChatReachable st → ChatReachable { st with inputValue := input }
  | seeded (st : ChatState) (now : Nat) :
      ChatReachable st → ChatReachable (initWelcome st now)
  | started (st : ChatState) (now : Nat) :
      ChatReachable st → ChatReachable (sendMessageStart st now)
  | finished (st : ChatState) (now : Nat) (outcome : ChatOutcome) :
      ChatReachable st → st.isLoading = true → ChatReachable (sendMessageFinish st now outcome)

theorem pendingCount_append (l₁ l₂ : List Message) :
    pendingCount (l₁ ++ l₂) = pendingCount l₁ + pendingCount l₂ := by
  simp [pendingCount, List.filter_append]

theorem pendingCount_nil : pendingCount [] = 0 := rfl

theorem pendingCount_le_dropLast_succ (ms : List Message) :
    pendingCount ms ≤ pendingCount ms.dropLast + 1 := by
  rcases eq_or_ne ms [] with h | h
  · subst h; simp [pendingCount]
  · have hms := (List.dropLast_append_getLast h).symm
    calc pendingCount ms = pendingCount (ms.dropLast ++ [ms.getLast h]) := by rw [← hms]
    _ = pendingCount ms.dropLast + pendingCount [ms.getLast h] := pendingCount_append _ _
    _ ≤ pendingCount ms.dropLast + 1 := by
        have : pendingCount [ms.getLast h] ≤ 1 := by
          simp [pendingCount, List.filter]
          split <;> simp
        omega

/-- Inductive invariant of the chat session: while idle the transcript has no
pending turn; while a request is in flight every turn except possibly the
last is non-pending. -/
def chatInv (st : ChatState) : Prop :=
  (st.isLoading = false → pendingCount st.messages = 0) ∧
  (st.isLoading = true → pendingCount st.messages.dropLast = 0)

theorem chatInv_of_reachable (st : ChatState) (h : ChatReachable st) : chatInv st := by
  induction h with
  | empty input =>
      constructor <;> intro h <;> simp_all [pendingCount]
  | typing st input _ ih =>
      exact ih
  | seeded st now _ ih =>
      unfold initWelcome
      split
      · constructor <;> intro h <;>
          simp [pendingCount, welcomeMessage, List.filter]
      · exact ih
  | started st now _ ih =>
      unfold sendMessageStart
      split
      · exact ih
      · rename_i hguard
        push_neg at hguard
        have hidle : st.isLoading = false := by
          rcases hguard with ⟨-, h2⟩
          exact Bool.not_eq_true _ ▸ (by simpa using h2)
        have h0 : pendingCount st.messages = 0 := ih.1 hidle
        constructor
        · intro h; simp at h
        · intro _
          have : (st.messages ++ [userMessage now (jsTrim st.inputValue), loadingMessage now]).dropLast
              = st.messages ++ [userMessage now (jsTrim st.inputValue)] := by
            rw [show st.messages ++ [userMessage now (jsTrim st.inputValue), loadingMessage now]
                = (st.messages ++ [userMessage now (jsTrim st.inputValue)]) ++ [loadingMessage now] by
              simp]
            exact List.dropLast_concat
          have h1 : pendingCount [userMessage now (jsTrim st.inputValue)] = 0 := rfl
          simp only [this, pendingCount_append, h0, h1]
  | finished st now outcome _ hload ih =>
      have h0 : pendingCount st.messages.dropLast = 0 := ih.2 hload
      cases outcome <;>
        constructor <;> intro h <;>
          simp_all [sendMessageFinish, pendingCount_append, pendingCount, List.filter, aiMessage]

theorem dropLast_append_two {α : Type} (l : List α) (a b : α) :
    (l ++ [a, b]).dropLast = l ++ [a] := by
  rw [show l ++ [a, b] = (l ++ [a]) ++ [b] by simp]
  exact List.dropLast_concat

/-- Content of the turn that replaces the placeholder: the resolved answer on
a parsed 2xx response, the connection diagnostic on every failure. -/
def finishContent (outcome : ChatOutcome) : String :=
  match outcome with
  | ChatOutcome.ok r => resolvedContent r
  | _ => connectionErrorText

/-- The transcript after a complete `sendMessage` call on an idle state with a
non-empty trimmed input: the old transcript, then the user turn, then the
resolved assistant turn (answer on `ok`, connection diagnostic otherwise). -/
theorem sendMessage_messages (st : ChatState) (now : Nat) (outcome : ChatOutcome)
    (h1 : jsTrim st.inputValue ≠ "") (h2 : st.isLoading = false) :
    (sendMessage st now outcome).messages
      = st.messages ++ [userMessage now (jsTrim st.inputValue),
          aiMessage now (finishContent outcome)] := by
  have hg : ¬(jsTrim st.inputValue = "" ∨ st.isLoading = true) := by
    simp [h1, h2]
  unfold sendMessage sendMessageStart
  rw [if_neg hg, if_neg hg]
  cases outcome <;>
    simp [sendMessageFinish, finishContent, dropLast_append_two]

theorem sendMessage_isLoading (st : ChatState) (now : Nat) (outcome : ChatOutcome)
    (h2 : st.isLoading = false) :
    (sendMessage st now outcome).isLoading = false := by
  unfold sendMessage sendMessageStart
  split
  · exact h2
  · cases outcome <;> simp [sendMessageFinish]

/-- C1: at every point of every execution of the conversation session the
transcript holds at most one pending turn — `sendMessage` appends exactly one
pending placeholder and both reconciliation paths replace it. -/
theorem transcript_at_most_one_pending (st : ChatState) (h : ChatReachable st) :
    pendingCount st.messages ≤ 1 := by
  have hinv := chatInv_of_reachable st h
  cases hload : st.isLoading with
  | false => rw [hinv.1 hload]; omega
  | true =>
      have h0 := hinv.2 hload
      have hle := pendingCount_le_dropLast_succ st.messages
      omega

/-- Witness for C1 at the state reached by mounting, typing `hi`, submitting,
and reconciling a successful answer. -/
theorem transcript_at_most_one_pending_witness :
    ChatReachable (sendMessageFinish
        (sendMessageStart { messages := [], inputValue := "hi", isLoading := false } 0) 0
        (ChatOutcome.ok (some "yo"))) ∧
    pendingCount (sendMessageFinish
        (sendMessageStart { messages := [], inputValue := "hi", isLoading := false } 0) 0
        (ChatOutcome.ok (some "yo"))).messages ≤ 1 := by
  have hreach : ChatReachable (sendMessageFinish
      (sendMessageStart { messages := [], inputValue := "hi", isLoading := false } 0) 0
      (ChatOutcome.ok (some "yo"))) :=
    ChatReachable.finished _ 0 _
      (ChatReachable.started _ 0 (ChatReachable.empty "hi")) (by decide)
  exact ⟨hreach, transcript_at_most_one_pending _ hreach⟩

/-- C2: on an idle session, `sendMessage` with any non-empty trimmed input
grows the transcript by exactly two turns — one user turn, and one assistant
turn that is pending in the intermediate state and resolved afterwards —
whatever the backend outcome. -/
theorem submit_appends_two_turns (st : ChatState) (now : Nat) (outcome : ChatOutcome)
    (h1 : jsTrim st.inputValue ≠ "") (h2 : st.isLoading = false) :
    (sendMessageStart st now).messages
      = st.messages ++ [userMessage now (jsTrim st.inputValue), loadingMessage now] ∧
    (userMessage now (jsTrim st.inputValue)).sender = Sender.user ∧
    (loadingMessage now).sender = Sender.ai ∧
    (loadingMessage now).isLoading = true ∧
    (sendMessage st now outcome).messages.length = st.messages.length + 2 ∧
    ∃ m, (sendMessage st now outcome).messages
        = st.messages ++ [userMessage now (jsTrim st.inputValue), m] ∧
      m.sender = Sender.ai ∧ m.isLoading = false := by
  have hg : ¬(jsTrim st.inputValue = "" ∨ st.isLoading = true) := by
    simp [h1, h2]
  have hmsgs := sendMessage_messages st now outcome h1 h2
  refine ⟨?_, rfl, rfl, rfl, ?_, ?_⟩
  · unfold sendMessageStart
    rw [if_neg hg]
  · rw [hmsgs]; simp
  · refine ⟨aiMessage now (finishContent outcome), hmsgs, rfl, rfl⟩

/-- Witness for C2 on an empty idle transcript with input `"hello"` and a
failed backend call. -/
theorem submit_appends_two_turns_witness :
    jsTrim "hello" ≠ "" ∧
    ((sendMessageStart { messages := [], inputValue := "hello", isLoading := false } 3).messages
      = [] ++ [userMessage 3 (jsTrim "hello"), loadingMessage 3] ∧
    (userMessage 3 (jsTrim "hello")).sender = Sender.user ∧
    (loadingMessage 3).sender = Sender.ai ∧
    (loadingMessage 3).isLoading = true ∧
    (sendMessage { messages := [], inputValue := "hello", isLoading := false } 3
        ChatOutcome.networkError).messages.length = ([] : List Message).length + 2 ∧
    ∃ m, (sendMessage { messages := [], inputValue := "hello", isLoading := false } 3
        ChatOutcome.networkError).messages
        = [] ++ [userMessage 3 (jsTrim "hello"), m] ∧
      m.sender = Sender.ai ∧ m.isLoading = false) :=
  ⟨by decide,
    submit_appends_two_turns { messages := [], inputValue := "hello", isLoading := false } 3
      ChatOutcome.networkError (by decide) rfl⟩

/-- C3 counterexample: the backend payload `{response: ""}` is a 2xx
well-formed JSON response whose `response` field is present, yet the resolved
turn's content is the fixed fallback text, not the (empty) field value,
because `data.response || fallback` treats the empty string as falsy. -/
theorem submit_empty_response_field_counterexample :
    ((sendMessage { messages := [], inputValue := "hi", isLoading := false } 0
        (ChatOutcome.ok (some ""))).messages.map Message.content)
      = ["hi", "Sorry, I encountered an issue processing your request."] ∧
    ("Sorry, I encountered an issue processing your request." : String) ≠ "" := by
  exact ⟨by decide, by decide⟩

/-- C3 amended: on a 2xx well-formed JSON outcome the pending turn is
replaced in place, as the last transcript element, by a non-pending assistant
turn; its content is exactly the payload's `response` field when that field
is present and non-empty, and the fixed fallback text when the field is
absent or the empty string. -/
theorem submit_success_content (st : ChatState) (now : Nat) (r : Option String)
    (h1 : jsTrim st.inputValue ≠ "") (h2 : st.isLoading = false) :
    (sendMessage st now (ChatOutcome.ok r)).messages
      = (sendMessageStart st now).messages.dropLast ++ [aiMessage now (resolvedContent r)] ∧
    (sendMessage st now (ChatOutcome.ok r)).messages.getLast?
      = some (aiMessage now (resolvedContent r)) ∧
    (aiMessage now (resolvedContent r)).isLoading = false ∧
    (aiMessage now (resolvedContent r)).sender = Sender.ai ∧
    (∀ s, r = some s → s ≠ "" → resolvedContent r = s) ∧
    ((r = none ∨ r = some "") → resolvedContent r = processingIssueText) := by
  have hg : ¬(jsTrim st.inputValue = "" ∨ st.isLoading = true) := by
    simp [h1, h2]
  refine ⟨?_, ?_, rfl, rfl, ?_, ?_⟩
  · unfold sendMessage
    rw [if_neg hg]
    simp [sendMessageFinish]
  · rw [sendMessage_messages st now (ChatOutcome.ok r) h1 h2]
    simp only [finishContent]
    rw [show st.messages ++ [userMessage now (jsTrim st.inputValue),
        aiMessage now (resolvedContent r)]
      = (st.messages ++ [userMessage now (jsTrim st.inputValue)])
          ++ [aiMessage now (resolvedContent r)] by simp]
    exact List.getLast?_concat _
  · rintro s rfl hs
    simp [resolvedContent, hs]
  · rintro (rfl | rfl) <;> simp [resolvedContent]

/-- Witness for the amended C3 with input `"list all tickets"` and payload
`{response: "Here are your tickets..."}`. -/
theorem submit_success_content_witness :
    jsTrim "list all tickets" ≠ "" ∧
    ((sendMessage { messages := [], inputValue := "list all tickets", isLoading := false } 7
        (ChatOutcome.ok (some "Here are your tickets..."))).messages
      = (sendMessageStart { messages := [], inputValue := "list all tickets", isLoading := false } 7).messages.dropLast
          ++ [aiMessage 7 (resolvedContent (some "Here are your tickets..."))] ∧
    (sendMessage { messages := [], inputValue := "list all tickets", isLoading := false } 7
        (ChatOutcome.ok (some "Here are your tickets..."))).messages.getLast?
      = some (aiMessage 7 (resolvedContent (some "Here are your tickets..."))) ∧
    (aiMessage 7 (resolvedContent (some "Here are your tickets..."))).isLoading = false ∧
    (aiMessage 7 (resolvedContent (some "Here are your tickets..."))).sender = Sender.ai ∧
    (∀ s, (some "Here are your tickets..." : Option String) = some s → s ≠ "" →
      resolvedContent (some "Here are your tickets...") = s) ∧
    (((some "Here are your tickets..." : Option String) = none ∨
        (some "Here are your tickets..." : Option String) = some "") →
      resolvedContent (some "Here are your tickets...") = processingIssueText)) :=
  ⟨by decide,
    submit_success_content { messages := [], inputValue := "list all tickets", isLoading := false }
      7 (some "Here are your tickets...") (by decide) rfl⟩

/-- C4: on any failed backend call — non-2xx status, malformed JSON, or a
rejected fetch — the pending turn is replaced by a non-pending assistant turn
carrying the fixed connection-error diagnostic, the busy flag is cleared, and
the session ends in a well-formed transcript (the recovery is a state value,
never a propagated exception). -/
theorem submit_failure_recovers (st : ChatState) (now : Nat) (outcome : ChatOutcome)
    (h1 : jsTrim st.inputValue ≠ "") (h2 : st.isLoading = false)
    (hfail : outcome = ChatOutcome.httpError ∨ outcome = ChatOutcome.jsonError ∨
      outcome = ChatOutcome.networkError) :
    (sendMessage st now outcome).messages
      = st.messages
          ++ [userMessage now (jsTrim st.inputValue), aiMessage now connectionErrorText] ∧
    (sendMessage st now outcome).messages.getLast? = some (aiMessage now connectionErrorText) ∧
    (aiMessage now connectionErrorText).isLoading = false ∧
    (aiMessage now connectionErrorText).content = connectionErrorText ∧
    (sendMessage st now outcome).isLoading = false ∧
    pendingCount (sendMessage st now outcome).messages = pendingCount st.messages := by
  have hmsgs : (sendMessage st now outcome).messages
      = st.messages
          ++ [userMessage now (jsTrim st.inputValue), aiMessage now connectionErrorText] := by
    have := sendMessage_messages st now outcome h1 h2
    rcases hfail with rfl | rfl | rfl <;> simpa using this
  refine ⟨hmsgs, ?_, rfl, rfl, sendMessage_isLoading st now outcome h2, ?_⟩
  · rw [hmsgs]
    rw [show st.messages
        ++ [userMessage now (jsTrim st.inputValue), aiMessage now connectionErrorText]
      = (st.messages ++ [userMessage now (jsTrim st.inputValue)])
          ++ [aiMessage now connectionErrorText] by simp]
    exact List.getLast?_concat _
  · rw [hmsgs, pendingCount_append]
    have : pendingCount
        [userMessage now (jsTrim st.inputValue), aiMessage now connectionErrorText] = 0 := rfl
    omega

/-- Witness for C4 with input `"hello"` and an unreachable backend
(rejected fetch). -/
theorem submit_failure_recovers_witness :
    jsTrim "hello" ≠ "" ∧
    ((sendMessage { messages := [], inputValue := "hello", isLoading := false } 1
        ChatOutcome.networkError).messages
      = [] ++ [userMessage 1 (jsTrim "hello"), aiMessage 1 connectionErrorText] ∧
    (sendMessage { messages := [], inputValue := "hello", isLoading := false } 1
        ChatOutcome.networkError).messages.getLast? = some (aiMessage 1 connectionErrorText) ∧
    (aiMessage 1 connectionErrorText).isLoading = false ∧
    (aiMessage 1 connectionErrorText).content = connectionErrorText ∧
    (sendMessage { messages := [], inputValue := "hello", isLoading := false } 1
        ChatOutcome.networkError).isLoading = false ∧
    pendingCount (sendMessage { messages := [], inputValue := "hello", isLoading := false } 1
        ChatOutcome.networkError).messages = pendingCount []) :=
  ⟨by decide,
    submit_failure_recovers { messages := [], inputValue := "hello", isLoading := false } 1
      ChatOutcome.networkError (by decide) rfl (Or.inr (Or.inr rfl))⟩

/-- The `ticket` sub-object of the `SummaryData` interface in
_document.tsx. -/
structure Ticket where
  ticketID : Int
  ticketNumber : String
deriving DecidableEq, Repr

/-- The `SummaryData` interface of _document.tsx: the JSON payload of
`GET /summarize/:identifier`, stored verbatim as the lookup result.  Optional
fields (`ticket?`, `error?`, `message?`) are embedded as `Option`. -/
structure SummaryData where
  success : Bool
  identifier : String
  ticket : Option Ticket
  summary : String
  conversationLength : Int
  attachmentCount : Int
  timestamp : String
  error : Option String
  message : Option String
deriving DecidableEq, Repr

/-- The React state of `SummaryPage`: `summaryData`, `isLoading`,
`recentSearches`. -/
structure SummaryState where
  summaryData : Option SummaryData
  isLoading : Bool
  recentSearches : List String
deriving DecidableEq, Repr

/-- Outcome of the `fetch` + `response.json()` sequence inside
`fetchSummary`.  `response httpOk body` is a resolved fetch carrying the HTTP
status (`httpOk` is `response.ok`; the source never reads it) and `body` the
parsed JSON payload, `none` when the body failed to parse (so `json()`
threw); `networkError` is a rejected fetch. -/
inductive LookupOutcome where
  | response (httpOk : Bool) (body : Option SummaryData)
  | networkError
deriving DecidableEq, Repr

/-- Lines 58-62 of _document.tsx:
`[query, ...recentSearches.filter(s => s !== query)].slice(0, 5)`. -/
def saveRecentSearch (query : String) (recentSearches : List String) : List String :=
  (query :: recentSearches.filter (fun s => s != query)).take 5

/-- The diagnostic message text of line 89 of _document.tsx. -/
def connectionFailedMessage : String :=
  "Could not connect to the backend server. Make sure it\x27s running on localhost:3002"

/-- The synthesized `SummaryData` stored by the catch block of `fetchSummary`
(lines 81-90 of _document.tsx): `success: false`, the trimmed identifier,
empty summary, zero counts, the current ISO timestamp, and the fixed
connection-failure error and message. -/
def connectionFailedData (identifier : String) (nowISO : String) : SummaryData :=
  { success := false,
    identifier := jsTrim identifier,
    ticket := none,
    summary := "",
    conversationLength := 0,
    attachmentCount := 0,
    timestamp := nowISO,
    error := some "Connection failed",
    message := some connectionFailedMessage }

/-- One complete `fetchSummary` call (lines 64-94 of _document.tsx): the
guard `if (!identifier.trim()) return`, then `setSummaryData(data)` for a
parsed body with `saveRecentSearch` on `data.success`, and the catch path
storing `connectionFailedData` when the fetch rejected or the body was not
JSON; the `finally` block clears the busy flag. -/
def fetchSummary (st : SummaryState) (identifier : String) (nowISO : String)
    (outcome : LookupOutcome) : SummaryState :=
  if jsTrim identifier = "" then st
  else
    match outcome with
    | LookupOutcome.response _ (some data) =>
        { summaryData := some data,
          isLoading := false,
          recentSearches :=
            if data.success then saveRecentSearch (jsTrim identifier) st.recentSearches
            else st.recentSearches }
    | LookupOutcome.response _ none =>
        { st with summaryData := some (connectionFailedData identifier nowISO),
                  isLoading := false }
    | LookupOutcome.networkError =>
        { st with summaryData := some (connectionFailedData identifier nowISO),
                  isLoading := false }

/-- Line 290 of _document.tsx, the message shown for a non-success result:
`summaryData.message || \x7bNo ticket found with identifier: ...\x7d` — the
payload's message when truthy, else a default naming the payload's
identifier. -/
def errorDisplayMessage (data : SummaryData) : String :=
  match data.message with
  | some m => if m = "" then "No ticket found with identifier: " ++ data.identifier else m
  | none => "No ticket found with identifier: " ++ data.identifier

/-- C5: a lookup whose backend body is parsed JSON with `success = true`
stores that payload verbatim as the result — ticket reference, summary text,
conversation length, attachment count and timestamp all from the payload —
and prepends the trimmed identifier to the recent-search log. -/
theorem lookup_success (st : SummaryState) (identifier nowISO : String)
    (httpOk : Bool) (data : SummaryData)
    (hid : jsTrim identifier ≠ "") (hs : data.success = true) :
    (fetchSummary st identifier nowISO (LookupOutcome.response httpOk (some data))).summaryData
      = some data ∧
    (fetchSummary st identifier nowISO (LookupOutcome.response httpOk (some data))).recentSearches
      = saveRecentSearch (jsTrim identifier) st.recentSearches ∧
    (fetchSummary st identifier nowISO
        (LookupOutcome.response httpOk (some data))).recentSearches.head?
      = some (jsTrim identifier) := by
  refine ⟨?_, ?_, ?_⟩ <;>
    simp [fetchSummary, hid, hs, saveRecentSearch, List.take_succ_cons]

/-- Witness for C5: Scenario C of the specification, `lookup("13000020")`
with a successful payload. -/
theorem lookup_success_witness :
    jsTrim "13000020" ≠ "" ∧
    SummaryData.success
      { success := true, identifier := "13000020",
        ticket := some { ticketID := 13000020, ticketNumber := "2025090610000020" },
        summary := "...", conversationLength := 4, attachmentCount := 1,
        timestamp := "2025-01-01T00:00:00Z", error := none, message := none } = true ∧
    ((fetchSummary { summaryData := none, isLoading := false, recentSearches := [] }
        "13000020" "t" (LookupOutcome.response true (some
          { success := true, identifier := "13000020",
            ticket := some { ticketID := 13000020, ticketNumber := "2025090610000020" },
            summary := "...", conversationLength := 4, attachmentCount := 1,
            timestamp := "2025-01-01T00:00:00Z", error := none, message := none }))).summaryData
      = some
          { success := true, identifier := "13000020",
            ticket := some { ticketID := 13000020, ticketNumber := "2025090610000020" },
            summary := "...", conversationLength := 4, attachmentCount := 1,
            timestamp := "2025-01-01T00:00:00Z", error := none, message := none } ∧
    (fetchSummary { summaryData := none, isLoading := false, recentSearches := [] }
        "13000020" "t" (LookupOutcome.response true (some
          { success := true, identifier := "13000020",
            ticket := some { ticketID := 13000020, ticketNumber := "2025090610000020" },
            summary := "...", conversationLength := 4, attachmentCount := 1,
            timestamp := "2025-01-01T00:00:00Z", error := none, message := none }))).recentSearches
      = saveRecentSearch (jsTrim "13000020") [] ∧
    (fetchSummary { summaryData := none, isLoading := false, recentSearches := [] }
        "13000020" "t" (LookupOutcome.response true (some
          { success := true, identifier := "13000020",
            ticket := some { ticketID := 13000020, ticketNumber := "2025090610000020" },
            summary := "...", conversationLength := 4, attachmentCount := 1,
            timestamp := "2025-01-01T00:00:00Z", error := none, message := none }))).recentSearches.head?
      = some (jsTrim "13000020")) :=
  ⟨by decide, rfl,
    lookup_success { summaryData := none, isLoading := false, recentSearches := [] }
      "13000020" "t" true
      { success := true, identifier := "13000020",
        ticket := some { ticketID := 13000020, ticketNumber := "2025090610000020" },
        summary := "...", conversationLength := 4, attachmentCount := 1,
        timestamp := "2025-01-01T00:00:00Z", error := none, message := none }
      (by decide) rfl⟩

/-- C6: a parsed JSON body with `success = false` is stored verbatim as a
not-found result — the displayed message is the payload's message when
present (and non-empty), or a generated default naming the searched
identifier when absent — and a network-level failure (rejected fetch or
non-JSON body) stores the synthesized transport-error record whose fixed
message names the expected backend address; the recent-search log is
unchanged in all of these cases. -/
theorem lookup_failure (st : SummaryState) (identifier nowISO : String)
    (httpOk : Bool) (data : SummaryData)
    (hid : jsTrim identifier ≠ "") (hf : data.success = false)
    (hecho : data.identifier = jsTrim identifier) :
    (fetchSummary st identifier nowISO (LookupOutcome.response httpOk (some data))).summaryData
      = some data ∧
    (fetchSummary st identifier nowISO (LookupOutcome.response httpOk (some data))).recentSearches
      = st.recentSearches ∧
    (∀ m, data.message = some m → m ≠ "" → errorDisplayMessage data = m) ∧
    (data.message = none →
      errorDisplayMessage data = "No ticket found with identifier: " ++ jsTrim identifier) ∧
    (fetchSummary st identifier nowISO LookupOutcome.networkError).summaryData
      = some (connectionFailedData identifier nowISO) ∧
    (fetchSummary st identifier nowISO LookupOutcome.networkError).recentSearches
      = st.recentSearches ∧
    (fetchSummary st identifier nowISO (LookupOutcome.response httpOk none)).summaryData
      = some (connectionFailedData identifier nowISO) ∧
    (fetchSummary st identifier nowISO (LookupOutcome.response httpOk none)).recentSearches
      = st.recentSearches ∧
    (connectionFailedData identifier nowISO).message = some connectionFailedMessage ∧
    connectionFailedMessage
      = "Could not connect to the backend server. Make sure it\x27s running on localhost:3002" := by
  refine ⟨?_, ?_, ?_, ?_, ?_, ?_, ?_, ?_, rfl, rfl⟩
  · simp [fetchSummary, hid]
  · simp [fetchSummary, hid, hf]
  · rintro m hm hne
    simp [errorDisplayMessage, hm, hne]
  · intro hm
    simp [errorDisplayMessage, hm, hecho]
  · simp [fetchSummary, hid]
  · simp [fetchSummary, hid]
  · simp [fetchSummary, hid]
  · simp [fetchSummary, hid]

/-- Witness for C6: Scenario D of the specification, `lookup("nonexistent")`
with payload `{success: false, message: "No ticket found"}`, plus the
unreachable-backend case. -/
theorem lookup_failure_witness :
    jsTrim "nonexistent" ≠ "" ∧
    SummaryData.success
      { success := false, identifier := "nonexistent", ticket := none, summary := "",
        conversationLength := 0, attachmentCount := 0, timestamp := "t2",
        error := none, message := some "No ticket found" } = false ∧
    SummaryData.identifier
      { success := false, identifier := "nonexistent", ticket := none, summary := "",
        conversationLength := 0, attachmentCount := 0, timestamp := "t2",
        error := none, message := some "No ticket found" } = jsTrim "nonexistent" ∧
    ((fetchSummary { summaryData := none, isLoading := false, recentSearches := ["13000020"] }
        "nonexistent" "t2" (LookupOutcome.response true (some
          { success := false, identifier := "nonexistent", ticket := none, summary := "",
            conversationLength := 0, attachmentCount := 0, timestamp := "t2",
            error := none, message := some "No ticket found" }))).summaryData
      = some
          { success := false, identifier := "nonexistent", ticket := none, summary := "",
            conversationLength := 0, attachmentCount := 0, timestamp := "t2",
            error := none, message := some "No ticket found" } ∧
    (fetchSummary { summaryData := none, isLoading := false, recentSearches := ["13000020"] }
        "nonexistent" "t2" (LookupOutcome.response true (some
          { success := false, identifier := "nonexistent", ticket := none, summary := "",
            conversationLength := 0, attachmentCount := 0, timestamp := "t2",
            error := none, message := some "No ticket found" }))).recentSearches
      = ["13000020"] ∧
    (∀ m, SummaryData.message
        { success := false, identifier := "nonexistent", ticket := none, summary := "",
          conversationLength := 0, attachmentCount := 0, timestamp := "t2",
          error := none, message := some "No ticket found" } = some m → m ≠ "" →
      errorDisplayMessage
        { success := false, identifier := "nonexistent", ticket := none, summary := "",
          conversationLength := 0, attachmentCount := 0, timestamp := "t2",
          error := none, message := some "No ticket found" } = m) ∧
    (SummaryData.message
        { success := false, identifier := "nonexistent", ticket := none, summary := "",
          conversationLength := 0, attachmentCount := 0, timestamp := "t2",
          error := none, message := some "No ticket found" } = none →
      errorDisplayMessage
        { success := false, identifier := "nonexistent", ticket := none, summary := "",
          conversationLength := 0, attachmentCount := 0, timestamp := "t2",
          error := none, message := some "No ticket found" }
        = "No ticket found with identifier: " ++ jsTrim "nonexistent") ∧
    (fetchSummary { summaryData := none, isLoading := false, recentSearches := ["13000020"] }
        "nonexistent" "t2" LookupOutcome.networkError).summaryData
      = some (connectionFailedData "nonexistent" "t2") ∧
    (fetchSummary { summaryData := none, isLoading := false, recentSearches := ["13000020"] }
        "nonexistent" "t2" LookupOutcome.networkError).recentSearches = ["13000020"] ∧
    (fetchSummary { summaryData := none, isLoading := false, recentSearches := ["13000020"] }
        "nonexistent" "t2" (LookupOutcome.response true none)).summaryData
      = some (connectionFailedData "nonexistent" "t2") ∧
    (fetchSummary { summaryData := none, isLoading := false, recentSearches := ["13000020"] }
        "nonexistent" "t2" (LookupOutcome.response true none)).recentSearches = ["13000020"] ∧
    (connectionFailedData "nonexistent" "t2").message = some connectionFailedMessage ∧
    connectionFailedMessage
      = "Could not connect to the backend server. Make sure it\x27s running on localhost:3002") :=
  ⟨by decide, rfl, by decide,
    lookup_failure { summaryData := none, isLoading := false, recentSearches := ["13000020"] }
      "nonexistent" "t2" true
      { success := false, identifier := "nonexistent", ticket := none, summary := "",
        conversationLength := 0, attachmentCount := 0, timestamp := "t2",
        error := none, message := some "No ticket found" }
      (by decide) rfl (by decide)⟩

theorem not_mem_filter_ne (log : List String) (q : String) :
    q ∉ log.filter (fun s => s != q) := by
  intro h
  have := (List.mem_filter.mp h).2
  simp at this

/-- C7: the recent-search log update — inserting an identifier yields a log
with exactly one occurrence of it, positioned first, the remaining entries a
subsequence of the old log (relative order kept); the log never exceeds 5
entries, stays duplicate-free, and inserting 6 distinct identifiers into an
empty log leaves exactly the 5 most recent, newest first. -/
theorem recent_search_log_props (log : List String) (q a b c d e f : String)
    (hnd : log.Nodup) (h6 : ([a, b, c, d, e, f] : List String).Nodup) :
    (saveRecentSearch q log).count q = 1 ∧
    (saveRecentSearch q log).head? = some q ∧
    (saveRecentSearch q log).tail.Sublist log ∧
    (saveRecentSearch q log).length ≤ 5 ∧
    (saveRecentSearch q log).Nodup ∧
    saveRecentSearch f (saveRecentSearch e (saveRecentSearch d (saveRecentSearch c
        (saveRecentSearch b (saveRecentSearch a []))))) = [f, e, d, c, b] := by
  have hF := not_mem_filter_ne log q
  have heq : saveRecentSearch q log
      = q :: (log.filter (fun s => s != q)).take 4 := by
    simp [saveRecentSearch, List.take_succ_cons]
  have htake : (log.filter (fun s => s != q)).take 4 ⊆ log.filter (fun s => s != q) :=
    List.take_subset _ _
  have hqtake : q ∉ (log.filter (fun s => s != q)).take 4 := fun h => hF (htake h)
  refine ⟨?_, ?_, ?_, ?_, ?_, ?_⟩
  · rw [heq, List.count_cons_self, List.count_eq_zero.mpr hqtake]
  · rw [heq]; rfl
  · rw [heq]
    exact ((List.take_sublist _ _).trans (List.filter_sublist _)).trans (List.Sublist.refl _)
  · exact List.length_take_le _ _
  · rw [heq]
    exact List.nodup_cons.mpr ⟨hqtake,
      ((List.take_sublist _ _).nodup (hnd.filter _))⟩
  · simp only [List.nodup_cons, List.mem_cons, List.not_mem_nil, or_false, not_or,
      List.nodup_nil, and_true, List.mem_singleton] at h6
    obtain ⟨⟨hab, hac, had, hae, haf⟩, ⟨hbc, hbd, hbe, hbf⟩, ⟨hcd, hce, hcf⟩,
      ⟨hde, hdf⟩, hef⟩ := h6
    simp [saveRecentSearch, List.filter_cons, hab, hac, had, hae, haf, hbc, hbd, hbe,
      hbf, hcd, hce, hcf, hde, hdf, hef]

/-- Witness for C7 with a two-entry log, a repeat insertion of its second
entry, and six distinct identifiers. -/
theorem recent_search_log_props_witness :
    (["13000020", "13000025"] : List String).Nodup ∧
    (["a1", "a2", "a3", "a4", "a5", "a6"] : List String).Nodup ∧
    ((saveRecentSearch "13000025" ["13000020", "13000025"]).count "13000025" = 1 ∧
    (saveRecentSearch "13000025" ["13000020", "13000025"]).head? = some "13000025" ∧
    (saveRecentSearch "13000025" ["13000020", "13000025"]).tail.Sublist
      ["13000020", "13000025"] ∧
    (saveRecentSearch "13000025" ["13000020", "13000025"]).length ≤ 5 ∧
    (saveRecentSearch "13000025" ["13000020", "13000025"]).Nodup ∧
    saveRecentSearch "a6" (saveRecentSearch "a5" (saveRecentSearch "a4" (saveRecentSearch "a3"
        (saveRecentSearch "a2" (saveRecentSearch "a1" [])))))
      = ["a6", "a5", "a4", "a3", "a2"]) :=
  ⟨by decide, by decide,
    recent_search_log_props ["13000020", "13000025"] "13000025"
      "a1" "a2" "a3" "a4" "a5" "a6" (by decide) (by decide)⟩

/-- C8: with an input whose trimmed form is empty, both `sendMessage` and
`fetchSummary` return the state unchanged, for every possible network
outcome — i.e. they are complete no-ops and the backend is never
consulted. -/
theorem empty_input_noop (stC : ChatState) (stS : SummaryState) (now : Nat)
    (nowISO identifier : String) (oc : ChatOutcome) (ol : LookupOutcome)
    (hC : jsTrim stC.inputValue = "") (hS : jsTrim identifier = "") :
    sendMessage stC now oc = stC ∧
    sendMessageStart stC now = stC ∧
    fetchSummary stS identifier nowISO ol = stS := by
  refine ⟨?_, ?_, ?_⟩
  · simp [sendMessage, hC]
  · simp [sendMessageStart, hC]
  · simp [fetchSummary, hS]

/-- Witness for C8 with a whitespace-only input on both components. -/
theorem empty_input_noop_witness :
    jsTrim "  " = "" ∧ jsTrim " \t " = "" ∧
    (sendMessage { messages := [], inputValue := "  ", isLoading := false } 0
        ChatOutcome.networkError
      = { messages := [], inputValue := "  ", isLoading := false } ∧
    sendMessageStart { messages := [], inputValue := "  ", isLoading := false } 0
      = { messages := [], inputValue := "  ", isLoading := false } ∧
    fetchSummary { summaryData := none, isLoading := false, recentSearches := ["x"] }
        " \t " "t" LookupOutcome.networkError
      = { summaryData := none, isLoading := false, recentSearches := ["x"] }) :=
  ⟨by decide, by decide,
    empty_input_noop { messages := [], inputValue := "  ", isLoading := false }
      { summaryData := none, isLoading := false, recentSearches := ["x"] } 0 "t" " \t "
      ChatOutcome.networkError LookupOutcome.networkError (by decide) (by decide)⟩

/-- C9 counterexample: the transport-failure result produced by
`lookup("13000020")` against an unreachable backend is a flat record in
which the Success-variant fields are present with placeholder contents —
`summary = ""`, `conversationLength = 0`, `attachmentCount = 0` — while the
outcome is an error (`success = false`), so the other variants' fields are
not structurally absent. -/
theorem lookup_flat_placeholder_counterexample :
    (fetchSummary { summaryData := none, isLoading := false, recentSearches := [] }
        "13000020" "t" LookupOutcome.networkError).summaryData
      = some (connectionFailedData "13000020" "t") ∧
    (connectionFailedData "13000020" "t").success = false ∧
    (connectionFailedData "13000020" "t").error = some "Connection failed" ∧
    (connectionFailedData "13000020" "t").summary = "" ∧
    (connectionFailedData "13000020" "t").conversationLength = 0 ∧
    (connectionFailedData "13000020" "t").attachmentCount = 0 :=
  ⟨by decide, rfl, rfl, rfl, rfl, rfl⟩

/-- C9 amended: every lookup result is one flat `SummaryData` record, not a
tagged union with structurally absent fields.  The two transport-failure
paths (rejected fetch and non-JSON body) store the synthesized record whose
Success-variant fields are present with placeholder contents — empty
summary, zero conversation length and attachment count, absent ticket —
while a parsed `success = false` payload is stored verbatim, its fields
exactly those the backend sent. -/
theorem lookup_result_flat_record (st : SummaryState) (identifier nowISO : String)
    (httpOk : Bool) (data : SummaryData)
    (hid : jsTrim identifier ≠ "") (hf : data.success = false) :
    (fetchSummary st identifier nowISO LookupOutcome.networkError).summaryData
      = some (connectionFailedData identifier nowISO) ∧
    (fetchSummary st identifier nowISO (LookupOutcome.response httpOk none)).summaryData
      = some (connectionFailedData identifier nowISO) ∧
    (connectionFailedData identifier nowISO).success = false ∧
    (connectionFailedData identifier nowISO).error = some "Connection failed" ∧
    (connectionFailedData identifier nowISO).ticket = none ∧
    (connectionFailedData identifier nowISO).summary = "" ∧
    (connectionFailedData identifier nowISO).conversationLength = 0 ∧
    (connectionFailedData identifier nowISO).attachmentCount = 0 ∧
    (fetchSummary st identifier nowISO (LookupOutcome.response httpOk (some data))).summaryData
      = some data := by
  refine ⟨?_, ?_, rfl, rfl, rfl, rfl, rfl, rfl, ?_⟩
  · simp [fetchSummary, hid]
  · simp [fetchSummary, hid]
  · simp [fetchSummary, hid]

/-- Witness for the amended C9 at identifier `"13000025"`, with a verbatim
Scenario-D-style `success = false` payload alongside the transport-failure
record. -/
theorem lookup_result_flat_record_witness :
    jsTrim "13000025" ≠ "" ∧
    SummaryData.success
      { success := false, identifier := "13000025", ticket := none, summary := "",
        conversationLength := 0, attachmentCount := 0, timestamp := "t3",
        error := none, message := some "No ticket found" } = false ∧
    ((fetchSummary { summaryData := none, isLoading := false, recentSearches := [] }
        "13000025" "t3" LookupOutcome.networkError).summaryData
      = some (connectionFailedData "13000025" "t3") ∧
    (fetchSummary { summaryData := none, isLoading := false, recentSearches := [] }
        "13000025" "t3" (LookupOutcome.response true none)).summaryData
      = some (connectionFailedData "13000025" "t3") ∧
    (connectionFailedData "13000025" "t3").success = false ∧
    (connectionFailedData "13000025" "t3").error = some "Connection failed" ∧
    (connectionFailedData "13000025" "t3").ticket = none ∧
    (connectionFailedData "13000025" "t3").summary = "" ∧
    (connectionFailedData "13000025" "t3").conversationLength = 0 ∧
    (connectionFailedData "13000025" "t3").attachmentCount = 0 ∧
    (fetchSummary { summaryData := none, isLoading := false, recentSearches := [] }
        "13000025" "t3" (LookupOutcome.response true (some
          { success := false, identifier := "13000025", ticket := none, summary := "",
            conversationLength := 0, attachmentCount := 0, timestamp := "t3",
            error := none, message := some "No ticket found" }))).summaryData
      = some
          { success := false, identifier := "13000025", ticket := none, summary := "",
            conversationLength := 0, attachmentCount := 0, timestamp := "t3",
            error := none, message := some "No ticket found" }) :=
  ⟨by decide, rfl,
    lookup_result_flat_record { summaryData := none, isLoading := false, recentSearches := [] }
      "13000025" "t3" true
      { success := false, identifier := "13000025", ticket := none, summary := "",
        conversationLength := 0, attachmentCount := 0, timestamp := "t3",
        error := none, message := some "No ticket found" }
      (by decide) rfl⟩

/-- C10: `fetchSummary` never reads the HTTP status — a response with a
parsed JSON body produces exactly the state a 2xx response with that body
would, so a non-2xx JSON response is not a transport error, and a non-2xx
body with `success = true` still stores the payload and prepends the trimmed
identifier to the recent-search log. -/
theorem lookup_ignores_http_status (st : SummaryState) (identifier nowISO : String)
    (body : Option SummaryData) (httpOk : Bool) (data : SummaryData)
    (hid : jsTrim identifier ≠ "") (hs : data.success = true) :
    fetchSummary st identifier nowISO (LookupOutcome.response httpOk body)
      = fetchSummary st identifier nowISO (LookupOutcome.response true body) ∧
    (fetchSummary st identifier nowISO (LookupOutcome.response false (some data))).summaryData
      = some data ∧
    (fetchSummary st identifier nowISO
        (LookupOutcome.response false (some data))).recentSearches.head?
      = some (jsTrim identifier) := by
  refine ⟨?_, ?_, ?_⟩
  · cases body <;> rfl
  · simp [fetchSummary, hid]
  · simp [fetchSummary, hid, hs, saveRecentSearch, List.take_succ_cons]

/-- Witness for C10: a non-2xx response whose JSON body marks success still
stores the payload and updates the log. -/
theorem lookup_ignores_http_status_witness :
    jsTrim "13000020" ≠ "" ∧
    SummaryData.success
      { success := true, identifier := "13000020",
        ticket := some { ticketID := 13000020, ticketNumber := "2025090610000020" },
        summary := "s", conversationLength := 4, attachmentCount := 1,
        timestamp := "t4", error := none, message := none } = true ∧
    (fetchSummary { summaryData := none, isLoading := false, recentSearches := [] }
        "13000020" "t4" (LookupOutcome.response false (some
          { success := true, identifier := "13000020",
            ticket := some { ticketID := 13000020, ticketNumber := "2025090610000020" },
            summary := "s", conversationLength := 4, attachmentCount := 1,
            timestamp := "t4", error := none, message := none }))
      = fetchSummary { summaryData := none, isLoading := false, recentSearches := [] }
          "13000020" "t4" (LookupOutcome.response true (some
            { success := true, identifier := "13000020",
              ticket := some { ticketID := 13000020, ticketNumber := "2025090610000020" },
              summary := "s", conversationLength := 4, attachmentCount := 1,
              timestamp := "t4", error := none, message := none })) ∧
    (fetchSummary { summaryData := none, isLoading := false, recentSearches := [] }
        "13000020" "t4" (LookupOutcome.response false (some
          { success := true, identifier := "13000020",
            ticket := some { ticketID := 13000020, ticketNumber := "2025090610000020" },
            summary := "s", conversationLength := 4, attachmentCount := 1,
            timestamp := "t4", error := none, message := none }))).summaryData
      = some
          { success := true, identifier := "13000020",
            ticket := some { ticketID := 13000020, ticketNumber := "2025090610000020" },
            summary := "s", conversationLength := 4, attachmentCount := 1,
            timestamp := "t4", error := none, message := none } ∧
    (fetchSummary { summaryData := none, isLoading := false, recentSearches := [] }
        "13000020" "t4" (LookupOutcome.response false (some
          { success := true, identifier := "13000020",
            ticket := some { ticketID := 13000020, ticketNumber := "2025090610000020" },
            summary := "s", conversationLength := 4, attachmentCount := 1,
            timestamp := "t4", error := none, message := none }))).recentSearches.head?
      = some (jsTrim "13000020")) :=
  ⟨by decide, rfl,
    lookup_ignores_http_status
      { summaryData := none, isLoading := false, recentSearches := [] } "13000020" "t4"
      (some
        { success := true, identifier := "13000020",
          ticket := some { ticketID := 13000020, ticketNumber := "2025090610000020" },
          summary := "s", conversationLength := 4, attachmentCount := 1,
          timestamp := "t4", error := none, message := none })
      false
      { success := true, identifier := "13000020",
        ticket := some { ticketID := 13000020, ticketNumber := "2025090610000020" },
        summary := "s", conversationLength := 4, attachmentCount := 1,
        timestamp := "t4", error := none, message := none }
      (by decide) rfl⟩

end PocSummarizer
